import Mathlib

/-!
Shallow embedding of the LRT Wallbox Home Assistant integration
(`custom_components/lrt_wallbox`), covering:

* the command executor and its priority queue
  (`helpers.py`, class `WallboxClientExecutor`);
* the status refresh cycle (`helpers.py`, function `update_status`);
* the charge switch stop action (`switch.py`,
  `WallboxChargeSwitch.async_turn_off`);
* the load-limit number entity (`number.py`,
  `WallboxLoadLimitNumber.async_set_native_value`).

External collaborators (the device HTTP client, the Home Assistant event
loop and storage helper, `datetime.strptime`) are modelled as typed
parameters, following the interfaces the code uses.
-/

deriving instance DecidableEq for Except

namespace LrtWallbox

/-- Python runtime values held in the executor `data` snapshot.
`vNone` is the Python value `None`; datetime objects are abstracted to an
integer timestamp carried opaquely. -/
inductive Value where
  | vNone
  | vStr (s : String)
  | vBool (b : Bool)
  | vInt (n : Int)
  | vRat (q : ℚ)
  | vTime (t : Int)
deriving DecidableEq, Repr

/-- Python truthiness, as applied by `bool(...)` at `helpers.py` line 185. -/
def pyTruthy : Value → Bool
  | .vNone => false
  | .vStr s => s != ""
  | .vBool b => b
  | .vInt n => n != 0
  | .vRat q => q != 0
  | .vTime _ => true

/-- The exception classes the integration handlers distinguish:
`TimeoutError` (asyncio), `requests.exceptions.ReadTimeout`,
`requests.exceptions.ConnectionError`, `lrt_wallbox.WallboxError`
(carrying its `kind` string), and any other unexpected exception. -/
inductive PyErr where
  | timeoutError
  | readTimeout
  | connectionError
  | wallboxError (kind : String)
  | otherError (msg : String)
deriving DecidableEq, Repr

/-- The connectivity class caught by `update_status` at `helpers.py`
line 203: `except (TimeoutError, ReadTimeout, ConnectionError)`. -/
def PyErr.isConnectivity : PyErr → Bool
  | .timeoutError => true
  | .readTimeout => true
  | .connectionError => true
  | _ => false

/-- The connectivity class caught by the worker at `helpers.py` line 111:
`except (ConnectionError, ReadTimeout)`. `TimeoutError` is not caught
there; it is raised on the caller side by `asyncio.wait_for`. -/
def PyErr.isWorkerConnectivity : PyErr → Bool
  | .readTimeout => true
  | .connectionError => true
  | _ => false

/-- The snapshot keys the integration ever writes into `executor.data`
(the `ATTR_*` string constants imported from `const.py`; their identities,
not their spellings, matter to the logic). The writers are
`__init__.py` lines 70-80, `helpers.py` lines 86 and 175-198,
`switch.py` lines 57 and 71-80, and `number.py` line 73, all of which
stay inside this key set. -/
inductive SnapKey where
  | serial_number
  | esp_fw
  | atmel_fw
  | setup_status_network
  | setup_status_ambient_light
  | setup_status_max_charging_power
  | max_current
  | atmel_error
  | network_status_ethernet
  | network_status_wlan
  | charger_status
  | charger_is_charging
  | charger_current_rate
  | charger_seconds_since_start
  | charger_current_energy
  | last_transaction_start_time
  | last_transaction_end_time
  | last_transaction_energy
deriving DecidableEq, Fintype, Repr

/-- `executor.data`: a Python dict from keys to values; `none` models an
absent key (distinct from a key that is present with value `None`). -/
abbrev Snapshot := SnapKey → Option Value

/-- Python `d.get(k)`: returns `None` when the key is absent. -/
def Snapshot.get (d : Snapshot) (k : SnapKey) : Value :=
  (d k).getD .vNone

/-- Python `d[k] = v`. -/
def Snapshot.set (d : Snapshot) (k : SnapKey) (v : Value) : Snapshot :=
  fun j => if j = k then some v else d j

/-- A pending call as enqueued by `call()` at `helpers.py` line 138: the
tuple `(priority, seq, method_name, args, kwargs, future)`. The args,
kwargs and future do not take part in queue ordering and are elided. -/
structure Entry where
  priority : Int
  seq : Nat
  method : String
deriving DecidableEq, Repr

/-- Retrieval (non-strict) order of `asyncio.PriorityQueue` on the entry
tuples: lexicographic on `(priority, seq)`. The sequence counter
(`itertools.count`, `helpers.py` line 46) is unique per entry, so the
later tuple components never get compared. -/
def entryLe (a b : Entry) : Prop :=
  a.priority < b.priority ∨ (a.priority = b.priority ∧ a.seq ≤ b.seq)

/-- Strict `(priority, seq)` order between distinct queue entries. -/
def entryLt (a b : Entry) : Prop :=
  a.priority < b.priority ∨ (a.priority = b.priority ∧ a.seq < b.seq)

instance : DecidableRel entryLe := fun a b => by
  unfold entryLe
  infer_instance

instance : DecidableRel entryLt := fun a b => by
  unfold entryLt
  infer_instance

instance : IsTotal Entry entryLe where
  total a b := by
    unfold entryLe
    rcases lt_trichotomy a.priority b.priority with h | h | h
    · exact Or.inl (Or.inl h)
    · rcases Nat.le_total a.seq b.seq with hs | hs
      · exact Or.inl (Or.inr ⟨h, hs⟩)
      · exact Or.inr (Or.inr ⟨h.symm, hs⟩)
    · exact Or.inr (Or.inl h)

instance : IsTrans Entry entryLe where
  trans a b c hab hbc := by
    unfold entryLe at *
    rcases hab with h1 | ⟨h1, h1s⟩
    · rcases hbc with h2 | ⟨h2, _⟩
      · exact Or.inl (h1.trans h2)
      · exact Or.inl (h2 ▸ h1)
    · rcases hbc with h2 | ⟨h2, h2s⟩
      · exact Or.inl (h1 ▸ h2)
      · exact Or.inr ⟨h1.trans h2, h1s.trans h2s⟩

/-- The order in which the worker loop (`helpers.py` lines 93-103)
dequeues a set of pending entries: `self._queue.get()` repeatedly takes
the `(priority, seq)`-minimum, which for a fixed pending set is
extensionally the list sorted by `entryLe`. -/
def worker_process_order (pending : List Entry) : List Entry :=
  List.insertionSort entryLe pending

/-- Outcome of the gateway invocation
`await self._hass.async_add_executor_job(method, *args, **kwargs)` run by
the worker (`helpers.py` lines 106-109). -/
inductive GatewayOutcome where
  | ok (v : Value)
  | raises (e : PyErr)
deriving DecidableEq, Repr

/-- What the worker stores in the pending result future
(`helpers.py` lines 111-130): `future.set_result` or
`future.set_exception`. -/
inductive SlotResult where
  | value (v : Value)
  | error (e : PyErr)
deriving DecidableEq, Repr

/-- Routing of one gateway outcome by the worker loop body
(`helpers.py` lines 105-130), for a future that is still pending:
a connectivity error (`ConnectionError`, `ReadTimeout`) on the method
named `util_restart` resolves the future with `None`; the same error on
any other method, and every other exception, is set on the future;
a normal return resolves the future with the returned value. -/
def worker_route (method_name : String) (o : GatewayOutcome) : SlotResult :=
  match o with
  | .ok v => .value v
  | .raises e =>
    if e.isWorkerConnectivity then
      if method_name == "util_restart" then .value .vNone
      else .error e
    else .error e

/-- Awaiting a resolved future on the caller side of `call()`
(`helpers.py` line 141): a stored result is returned, a stored exception
is re-raised at the caller. -/
def await_slot : SlotResult → Except PyErr Value
  | .value v => .ok v
  | .error e => .error e

/-- The sentinel entry enqueued by `shutdown`
(`helpers.py` line 158): `(0, seq, "__shutdown__", (), {}, future)`. -/
def shutdown_sentinel (seq : Nat) : Entry :=
  ⟨0, seq, "__shutdown__"⟩

/-- The bound, in seconds, of `asyncio.wait_for(future, timeout=5)` in
`shutdown` (`helpers.py` line 160). -/
def shutdown_ack_timeout : Nat := 5

/-- Possible terminations of `shutdown()`. `raisesTimeout` would model
the ack `TimeoutError` propagating out of `shutdown`; the code catches
it (`helpers.py` lines 161-162) and only logs, so no path produces it. -/
inductive ShutdownOutcome where
  | completes
  | raisesTimeout
  | hangs
deriving DecidableEq, Repr

/-- `WallboxClientExecutor.shutdown` (`helpers.py` lines 153-164),
abstracted over its environment: `taskRunning` is `self._task` being set;
`ackWithinBound` is whether the worker resolves the sentinel future
within the 5-second `wait_for` bound; `workerEverExits` is whether the
worker task ever terminates at all. On an ack timeout the `TimeoutError`
is caught and logged; the following `await self._task` (line 163) has no
timeout, so `shutdown` returns only if the worker task eventually
exits, and blocks forever otherwise. -/
def shutdown_model (taskRunning ackWithinBound workerEverExits : Bool) :
    ShutdownOutcome :=
  if taskRunning then
    if ackWithinBound then .completes
    else if workerEverExits then .completes
    else .hangs
  else .completes

/-- Response object of the `atmel_error_get` read (`helpers.py`
line 170): carries an `error` attribute of arbitrary value, consumed via
`bool(is_error.error)`. -/
structure AtmelErrorResp where
  error : Value
deriving DecidableEq, Repr

/-- Response object of the `config_network_status` read (`helpers.py`
line 171): `ethernet` and `wlan` state strings. -/
structure NetworkStatusResp where
  ethernet : String
  wlan : String
deriving DecidableEq, Repr

/-- Response object of the `transaction_get` read (`helpers.py`
line 172). `currentTransactionEnergy` is numeric (it is divided and
rounded); the other two payload fields are carried opaquely. -/
structure TransactionResp where
  ocppCpState : String
  currentChargeRate : Value
  secondsSinceChargeStart : Value
  currentTransactionEnergy : ℚ
deriving DecidableEq, Repr

/-- The three executor reads `update_status` performs, in program order
(`helpers.py` lines 170-172), each either returning its response or
raising the recorded exception when awaited. -/
structure StatusGateway where
  atmel_error_get : Except PyErr AtmelErrorResp
  config_network_status : Except PyErr NetworkStatusResp
  transaction_get : Except PyErr TransactionResp
deriving DecidableEq, Repr

/-- The method names `update_status` queries through the executor, in
order (`helpers.py` lines 170-172). -/
def update_status_methods : List String :=
  ["atmel_error_get", "config_network_status", "transaction_get"]

/-- Python `round` to an integer: round-half-to-even. -/
def roundHalfEven (q : ℚ) : ℤ :=
  let f := ⌊q⌋
  let r := q - (f : ℚ)
  if r < 1 / 2 then f
  else if 1 / 2 < r then f + 1
  else if f % 2 = 0 then f else f + 1

/-- Python `round(x, 2)`: round-half-to-even at two decimal places. -/
def pyRound2 (q : ℚ) : ℚ :=
  (roundHalfEven (q * 100) : ℚ) / 100

/-- The fresh `result` dict built by `update_status` (`helpers.py`
lines 175-196): identity, firmware, setup and last-transaction keys are
carried from the previous snapshot via `.get`; error, network, and
charger keys are recomputed from the three fresh responses. Every key
of the mapping is assigned (present) in the result. -/
def refresh_result (old : Snapshot) (is_error : AtmelErrorResp)
    (network_status : NetworkStatusResp)
    (transaction_status : TransactionResp) : Snapshot :=
  fun k => match k with
  | .serial_number => some (old.get .serial_number)
  | .esp_fw => some (old.get .esp_fw)
  | .atmel_fw => some (old.get .atmel_fw)
  | .setup_status_network => some (old.get .setup_status_network)
  | .setup_status_ambient_light => some (old.get .setup_status_ambient_light)
  | .setup_status_max_charging_power =>
      some (old.get .setup_status_max_charging_power)
  | .max_current => some (old.get .max_current)
  | .atmel_error => some (.vBool (pyTruthy is_error.error))
  | .network_status_ethernet =>
      some (.vBool (network_status.ethernet == "Connected"))
  | .network_status_wlan =>
      some (.vBool (network_status.wlan == "Connected"))
  | .charger_status => some (.vStr transaction_status.ocppCpState)
  | .charger_is_charging =>
      some (.vBool (transaction_status.ocppCpState != "Available"))
  | .charger_current_rate => some transaction_status.currentChargeRate
  | .charger_seconds_since_start =>
      some transaction_status.secondsSinceChargeStart
  | .charger_current_energy =>
      some (.vRat (pyRound2 (transaction_status.currentTransactionEnergy / 1000)))
  | .last_transaction_start_time =>
      some (old.get .last_transaction_start_time)
  | .last_transaction_end_time =>
      some (old.get .last_transaction_end_time)
  | .last_transaction_energy =>
      some (old.get .last_transaction_energy)

/-- The keys `update_status` recomputes from fresh device responses; the
complement of this set is carried forward from the previous snapshot. -/
def refetched_keys : List SnapKey :=
  [.atmel_error, .network_status_ethernet, .network_status_wlan,
   .charger_status, .charger_is_charging, .charger_current_rate,
   .charger_seconds_since_start, .charger_current_energy]

/-- The `try` body of `update_status` (`helpers.py` lines 169-201):
awaits the three reads sequentially (an exception aborts at that point,
leaving the executor state untouched) and builds the merged snapshot. -/
def update_status_body (data : Snapshot) (gw : StatusGateway) :
    Except PyErr Snapshot := do
  let is_error ← gw.atmel_error_get
  let network_status ← gw.config_network_status
  let transaction_status ← gw.transaction_get
  pure (refresh_result data is_error network_status transaction_status)

/-- The executor state touched by `update_status`: the shared snapshot
and the availability flag (`helpers.py` lines 44-45). -/
structure Executor where
  data : Snapshot
  last_update_success : Bool

/-- `update_status` (`helpers.py` lines 167-216). On success the snapshot
is replaced by the merged result and `last_update_success` is set true;
on a connectivity-class exception (`TimeoutError`, `ReadTimeout`,
`ConnectionError`, line 203) `last_update_success` is kept true and the
previous snapshot is returned unchanged; on `WallboxError` or any other
exception `last_update_success` is set false and the exception
re-raised. Returns the post-call executor state and the returned value
or raised error. -/
def update_status (ex : Executor) (gw : StatusGateway) :
    Executor × Except PyErr Snapshot :=
  match update_status_body ex.data gw with
  | .ok result => (⟨result, true⟩, .ok result)
  | .error e =>
    if e.isConnectivity then
      ({ ex with last_update_success := true }, .ok ex.data)
    else
      ({ ex with last_update_success := false }, .error e)

/-- Response object of `transaction_stop` (`switch.py` line 64): start
and end time strings plus the transaction energy in Wh. -/
structure StopResp where
  startTime : String
  endTime : String
  energy : ℚ
deriving DecidableEq, Repr

/-- The record written by `save_persistent_data` (`helpers.py`
lines 53-69): the current values of the three last-transaction keys,
read with `.get` (absent keys persist as `None`; the ISO string
conversion of datetimes is the identity on these abstract values). -/
structure PersistedRecord where
  last_transaction_start_time : Value
  last_transaction_end_time : Value
  last_transaction_energy : Value
deriving DecidableEq, Repr

/-- `WallboxClientExecutor.save_persistent_data` (`helpers.py`
lines 53-69), as the record it stores. -/
def save_persistent_data (data : Snapshot) : PersistedRecord :=
  ⟨data.get .last_transaction_start_time,
   data.get .last_transaction_end_time,
   data.get .last_transaction_energy⟩

/-- `WallboxChargeSwitch.async_turn_off` (`switch.py` lines 60-82).
`gw` is the outcome of `executor.call("transaction_stop", priority=1)`;
`parse` abstracts `datetime.strptime(s, ...).replace(tzinfo=UTC)`, whose
failure raises out of the `try` body. On a successful stop the three
last-transaction keys are written (energy converted Wh to kWh and
rounded to 2 places); a `WallboxError` of any kind is caught by the
`except WallboxError` clause (the `if e.kind == "NotFound"` inside it
only selects the log message); any other exception propagates, skipping
the remaining statements. After the `try` the charging flag is set
false and the persisted record saved from the updated snapshot.
Returns the new snapshot and stored record, or the propagated error;
the trailing `coordinator.async_request_refresh()` is elided. -/
def async_turn_off (data : Snapshot) (gw : Except PyErr StopResp)
    (parse : String → Except PyErr Int) :
    Except PyErr (Snapshot × PersistedRecord) := do
  let data1 ←
    match gw with
    | .ok transaction_time => do
        let start_dt ← parse transaction_time.startTime
        let end_dt ← parse transaction_time.endTime
        pure (((data.set .last_transaction_start_time (.vTime start_dt)).set
                .last_transaction_end_time (.vTime end_dt)).set
                .last_transaction_energy
                (.vRat (pyRound2 (transaction_time.energy / 1000))))
    | .error (.wallboxError _) => pure data
    | .error e => Except.error e
  let data2 := data1.set .charger_is_charging (.vBool false)
  pure (data2, save_persistent_data data2)

/-- `MIN_CURRENT` (`number.py` line 24), the declared minimum of the
load-limit number entity; the declared maximum is the configured
`max_load` (`number.py` lines 62-63). -/
def MIN_CURRENT : Int := 6

/-- Python `int()` on a number: truncation toward zero, computed as
natural-number floor division of the absolute value with the sign
reattached, so `int(-3.5) = -3` and `int(3.5) = 3`. -/
def pyInt (q : ℚ) : Int :=
  if 0 ≤ q.num then ((q.num.natAbs / q.den : Nat) : Int)
  else -((q.num.natAbs / q.den : Nat) : Int)

/-- Sanity check that `pyInt` truncates toward zero on negative
non-integer values, like Python `int()` and unlike floor division. -/
theorem pyInt_truncates_toward_zero :
    pyInt (mkRat (-7) 2) = -3 ∧ pyInt (mkRat 7 2) = 3 ∧
    pyInt (mkRat (-1) 3) = 0 := by
  decide

/-- A call submitted through the executor by the number entity: the
method name and its integer argument (`number.py` lines 70-72). -/
structure SubmittedCall where
  method : String
  arg : Int
deriving DecidableEq, Repr

/-- Observable outcome of `async_set_native_value`: the call submitted
to the device, the snapshot afterwards, whether the handler re-raised,
and whether a refresh was requested (the `finally` block always does). -/
structure SetValueResult where
  submitted : SubmittedCall
  data : Snapshot
  outcome : Except PyErr Unit
  refreshRequested : Bool

/-- `WallboxLoadLimitNumber.async_set_native_value` (`number.py`
lines 66-80): submits `config_load_set` with `int(value)` (line 71); on
success records `int(value)` under the max-current key; a
`TimeoutError` is logged and swallowed; any other exception is logged
and re-raised; the `finally` block always requests a refresh. -/
def async_set_native_value (data : Snapshot) (value : ℚ)
    (gw : Except PyErr Unit) : SetValueResult :=
  let submitted : SubmittedCall := ⟨"config_load_set", pyInt value⟩
  match gw with
  | .ok _ =>
      ⟨submitted, data.set .max_current (.vInt (pyInt value)), .ok (), true⟩
  | .error .timeoutError => ⟨submitted, data, .ok (), true⟩
  | .error e => ⟨submitted, data, .error e, true⟩

/-- Spec-side definition, for the C9 refinement comparison only, written
from the spec words: the submitted value clamped to the entity declared
bounds, `MIN_CURRENT` and the configured `max_load`. -/
def clamped_submission (max_load : Int) (value : ℚ) : Int :=
  max MIN_CURRENT (min max_load (pyInt value))

/-! Concrete inputs used by witnesses and counterexamples. -/

/-- A concrete pre-refresh snapshot. -/
def snapA : Snapshot := fun k => match k with
  | .serial_number => some (.vStr "SN1")
  | .max_current => some (.vInt 16)
  | .last_transaction_start_time => some (.vTime 10)
  | .last_transaction_end_time => some (.vTime 20)
  | .last_transaction_energy => some (.vInt 5)
  | _ => none

/-- A concrete `atmel_error_get` response. -/
def atmelR : AtmelErrorResp := ⟨.vBool false⟩

/-- A concrete `config_network_status` response. -/
def netR : NetworkStatusResp := ⟨"Connected", "Disconnected"⟩

/-- A concrete `transaction_get` response. -/
def txR : TransactionResp := ⟨"Charging", .vInt 16, .vInt 60, 0⟩

/-- A gateway whose first read raises `ReadTimeout`. -/
def gwConnErr : StatusGateway :=
  ⟨.error .readTimeout, .ok netR, .ok txR⟩

/-- A gateway whose first read raises a `WallboxError`. -/
def gwAppErr : StatusGateway :=
  ⟨.error (.wallboxError "Internal"), .ok netR, .ok txR⟩

/-- The C1 scenario: submissions (priority 5, "A"), (priority 1, "B"),
(priority 5, "C"), with sequence numbers in submission order. -/
def scenarioEntries : List Entry :=
  [⟨5, 0, "A"⟩, ⟨1, 1, "B"⟩, ⟨5, 2, "C"⟩]

/-! Claim theorems. -/

/-- Claim C1: for every sequence of call submissions whose sequence
numbers increase in submission order, the worker dequeues the pending
calls in non-decreasing priority order (lower integer first), breaking
ties between equal priorities by submission order; it processes exactly
the submitted calls (a permutation). In particular the scenario
(priority 5, "A"), (priority 1, "B"), (priority 5, "C") is executed in
order B, A, C. -/
theorem C1_priority_fifo_order (pending : List Entry)
    (hseq : pending.Pairwise (fun a b => a.seq < b.seq)) :
    (worker_process_order pending).Perm pending ∧
    (worker_process_order pending).Pairwise entryLt ∧
    (worker_process_order scenarioEntries).map Entry.method
      = ["B", "A", "C"] := by
  refine ⟨List.perm_insertionSort entryLe pending, ?_, by decide⟩
  have hsorted : (worker_process_order pending).Pairwise entryLe :=
    List.sorted_insertionSort entryLe pending
  have hperm : (worker_process_order pending).Perm pending :=
    List.perm_insertionSort entryLe pending
  have hne0 : pending.Pairwise (fun a b => a.seq ≠ b.seq) :=
    hseq.imp (fun h => Nat.ne_of_lt h)
  have hne : (worker_process_order pending).Pairwise
      (fun a b => a.seq ≠ b.seq) :=
    (List.Perm.pairwise_iff (fun h => h.symm) hperm).mpr hne0
  refine (hsorted.and hne).imp ?_
  rintro a b ⟨hle, hnab⟩
  rcases hle with h | ⟨hp, hs⟩
  · exact Or.inl h
  · exact Or.inr ⟨hp, Nat.lt_of_le_of_ne hs hnab⟩

/-- Witness for C1 at the concrete scenario. -/
theorem C1_priority_fifo_order_witness :
    scenarioEntries.Pairwise (fun a b => a.seq < b.seq) ∧
    ((worker_process_order scenarioEntries).Perm scenarioEntries ∧
     (worker_process_order scenarioEntries).Pairwise entryLt ∧
     (worker_process_order scenarioEntries).map Entry.method
       = ["B", "A", "C"]) :=
  ⟨by decide, C1_priority_fifo_order scenarioEntries (by decide)⟩

/-- Claim C2: when the refresh body fails with a connectivity-class
error (timeout or connection error from any of its read calls),
`update_status` leaves `last_update_success` true and returns the
pre-refresh snapshot, identical by value: the executor snapshot is the
very same mapping, no key changed. -/
theorem C2_connectivity_preserves_snapshot (ex : Executor)
    (gw : StatusGateway) (e : PyErr)
    (herr : update_status_body ex.data gw = .error e)
    (hconn : e.isConnectivity = true) :
    (update_status ex gw).1.last_update_success = true ∧
    (update_status ex gw).1.data = ex.data ∧
    (update_status ex gw).2 = .ok ex.data := by
  unfold update_status
  rw [herr]
  simp [hconn]

/-- Witness for C2: first read raises `ReadTimeout`. -/
theorem C2_connectivity_preserves_snapshot_witness :
    (update_status_body snapA gwConnErr = .error .readTimeout ∧
     PyErr.isConnectivity .readTimeout = true) ∧
    ((update_status ⟨snapA, true⟩ gwConnErr).1.last_update_success = true ∧
     (update_status ⟨snapA, true⟩ gwConnErr).1.data = snapA ∧
     (update_status ⟨snapA, true⟩ gwConnErr).2 = .ok snapA) :=
  ⟨⟨rfl, rfl⟩,
   C2_connectivity_preserves_snapshot ⟨snapA, true⟩ gwConnErr .readTimeout
     rfl rfl⟩

/-- Claim C3: a connectivity-class error (connection error or read
timeout) raised by the gateway invocation resolves the result future
with `None` when the method is `util_restart` — so the caller gets a
successful empty result — and for every other method name that same
error is set on the future and re-raised at the caller. -/
theorem C3_worker_restart_special_case (e : PyErr)
    (he : e.isWorkerConnectivity = true) :
    (worker_route "util_restart" (.raises e) = .value .vNone ∧
     await_slot (worker_route "util_restart" (.raises e)) = .ok .vNone) ∧
    ∀ m : String, m ≠ "util_restart" →
      worker_route m (.raises e) = .error e ∧
      await_slot (worker_route m (.raises e)) = .error e := by
  constructor
  · simp [worker_route, await_slot, he]
  · intro m hm
    simp [worker_route, await_slot, he, hm]

/-- Witness for C3 with a connection error and method
`transaction_get`. -/
theorem C3_worker_restart_special_case_witness :
    (PyErr.isWorkerConnectivity .connectionError = true ∧
     "transaction_get" ≠ "util_restart") ∧
    (worker_route "util_restart" (.raises .connectionError)
       = .value .vNone ∧
     await_slot (worker_route "util_restart" (.raises .connectionError))
       = .ok .vNone) ∧
    (worker_route "transaction_get" (.raises .connectionError)
       = .error .connectionError ∧
     await_slot (worker_route "transaction_get" (.raises .connectionError))
       = .error .connectionError) :=
  ⟨⟨rfl, by decide⟩,
   (C3_worker_restart_special_case .connectionError rfl).1,
   (C3_worker_restart_special_case .connectionError rfl).2
     "transaction_get" (by decide)⟩

/-- Claim C4: for every prior snapshot and completed refresh merge,
every key the cycle did not re-query keeps its prior value exactly in
the merged result, and no such key is dropped (the result assigns it a
value). -/
theorem C4_refresh_carries_untouched_keys (old : Snapshot)
    (a : AtmelErrorResp) (n : NetworkStatusResp) (t : TransactionResp)
    (k : SnapKey) (hk : k ∉ refetched_keys) :
    (∀ v, old k = some v → refresh_result old a n t k = some v) ∧
    refresh_result old a n t k ≠ none := by
  cases k <;>
    first
    | exact absurd (by decide) hk
    | exact ⟨fun v hv => by simp [refresh_result, Snapshot.get, hv],
             by simp [refresh_result]⟩

/-- Witness for C4 at the serial-number key. -/
theorem C4_refresh_carries_untouched_keys_witness :
    (SnapKey.serial_number ∉ refetched_keys ∧
     snapA .serial_number = some (.vStr "SN1")) ∧
    refresh_result snapA atmelR netR txR .serial_number
      = some (.vStr "SN1") :=
  ⟨⟨by decide, rfl⟩,
   (C4_refresh_carries_untouched_keys snapA atmelR netR txR
     .serial_number (by decide)).1 (.vStr "SN1") rfl⟩

/-- Claim C5: when the refresh body fails with a device-application
error or any other non-connectivity error, `update_status` sets
`last_update_success` false and re-raises that error to the external
scheduler. -/
theorem C5_app_error_fails_and_reraises (ex : Executor)
    (gw : StatusGateway) (e : PyErr)
    (herr : update_status_body ex.data gw = .error e)
    (hnc : e.isConnectivity = false) :
    (update_status ex gw).1.last_update_success = false ∧
    (update_status ex gw).2 = .error e := by
  unfold update_status
  rw [herr]
  simp [hnc]

/-- Witness for C5: first read raises a `WallboxError`. -/
theorem C5_app_error_fails_and_reraises_witness :
    (update_status_body snapA gwAppErr
       = .error (.wallboxError "Internal") ∧
     PyErr.isConnectivity (.wallboxError "Internal") = false) ∧
    ((update_status ⟨snapA, true⟩ gwAppErr).1.last_update_success = false ∧
     (update_status ⟨snapA, true⟩ gwAppErr).2
       = .error (.wallboxError "Internal")) :=
  ⟨⟨rfl, rfl⟩,
   C5_app_error_fails_and_reraises ⟨snapA, true⟩ gwAppErr
     (.wallboxError "Internal") rfl rfl⟩

/-- Claim C6 counterexample: the refresh cycle queries exactly three
methods — no transaction-log read at all — and, at a concrete prior
snapshot and successful responses, the three last-transaction keys of
the merged result are the prior snapshot values carried forward
unchanged, not values computed from any transaction log; so the cycle
does not compute the 5 most-recent transactions. -/
theorem C6_counterexample :
    update_status_methods
      = ["atmel_error_get", "config_network_status", "transaction_get"] ∧
    "transaction_log" ∉ update_status_methods ∧
    snapA .last_transaction_end_time = some (.vTime 20) ∧
    refresh_result snapA atmelR netR txR .last_transaction_end_time
      = some (.vTime 20) ∧
    refresh_result snapA atmelR netR txR .last_transaction_start_time
      = snapA .last_transaction_start_time ∧
    refresh_result snapA atmelR netR txR .last_transaction_energy
      = snapA .last_transaction_energy :=
  ⟨rfl, by decide, rfl, rfl, rfl, rfl⟩

/-- Claim C6 (amended): the refresh cycle performs exactly the three
reads `atmel_error_get`, `config_network_status` and `transaction_get`;
it computes no transaction history — the three last-transaction keys
are carried forward unchanged from the prior snapshot — and the only
energy computation is the current transaction energy, divided by 1000
and rounded to two decimals. -/
theorem C6_amended_no_history_computation (old : Snapshot)
    (a : AtmelErrorResp) (n : NetworkStatusResp) (t : TransactionResp) :
    update_status_methods
      = ["atmel_error_get", "config_network_status", "transaction_get"] ∧
    refresh_result old a n t .last_transaction_start_time
      = some (old.get .last_transaction_start_time) ∧
    refresh_result old a n t .last_transaction_end_time
      = some (old.get .last_transaction_end_time) ∧
    refresh_result old a n t .last_transaction_energy
      = some (old.get .last_transaction_energy) ∧
    refresh_result old a n t .charger_current_energy
      = some (.vRat (pyRound2 (t.currentTransactionEnergy / 1000))) :=
  ⟨rfl, rfl, rfl, rfl, rfl⟩

/-- Claim C7 counterexample: with the worker task running, the sentinel
not acknowledged within the bounded wait, and the worker task never
exiting (a stuck device call), `shutdown` hangs: the claim that
teardown never hangs indefinitely on a stuck device call is false. -/
theorem C7_counterexample :
    shutdown_model true false false = ShutdownOutcome.hangs := by
  decide

/-- Claim C7 (amended): `shutdown` enqueues a sentinel at priority 0
named `__shutdown__`, waits a bounded 5 seconds for acknowledgement,
never re-raises the ack timeout, and completes whenever the worker task
eventually exits; but after the bounded wait it awaits the worker task
without any bound, so teardown hangs if the worker never exits (for
example on a device call that never returns). -/
theorem C7_amended_shutdown_bounded_ack_unbounded_join (seq : Nat) :
    (shutdown_sentinel seq).priority = 0 ∧
    (shutdown_sentinel seq).method = "__shutdown__" ∧
    shutdown_ack_timeout = 5 ∧
    (∀ t a w, shutdown_model t a w ≠ .raisesTimeout) ∧
    (∀ t a, shutdown_model t a true = .completes) ∧
    shutdown_model true false false = .hangs :=
  ⟨rfl, rfl, rfl, by decide, by decide, by decide⟩

/-- Claim C8: stop-charging while no transaction is active, with the
gateway raising a `WallboxError` of kind `NotFound`, completes without
raising; the charging flag is set false; the persisted record is
rewritten with the same values it held (assuming it previously matched
the snapshot, as every save in the program maintains), and every other
snapshot key is untouched. -/
theorem C8_stop_notfound_is_benign (data : Snapshot)
    (parse : String → Except PyErr Int) (store : PersistedRecord)
    (hstore : store = save_persistent_data data) :
    ∃ d2 s2,
      async_turn_off data (.error (.wallboxError "NotFound")) parse
        = .ok (d2, s2) ∧
      s2 = store ∧
      d2 .charger_is_charging = some (.vBool false) ∧
      ∀ k, k ≠ SnapKey.charger_is_charging → d2 k = data k := by
  refine ⟨data.set .charger_is_charging (.vBool false),
    save_persistent_data (data.set .charger_is_charging (.vBool false)),
    rfl, ?_, ?_, ?_⟩
  · rw [hstore]
    simp [save_persistent_data, Snapshot.set, Snapshot.get]
  · simp [Snapshot.set]
  · intro k hk
    simp [Snapshot.set, hk]

/-- Witness for C8 at a concrete snapshot and store. -/
theorem C8_stop_notfound_is_benign_witness :
    (save_persistent_data snapA = save_persistent_data snapA) ∧
    ∃ d2 s2,
      async_turn_off snapA (.error (.wallboxError "NotFound"))
          (fun _ => .error (.otherError "boom"))
        = .ok (d2, s2) ∧
      s2 = save_persistent_data snapA ∧
      d2 .charger_is_charging = some (.vBool false) ∧
      ∀ k, k ≠ SnapKey.charger_is_charging → d2 k = snapA k :=
  ⟨rfl,
   C8_stop_notfound_is_benign snapA (fun _ => .error (.otherError "boom"))
     (save_persistent_data snapA) rfl⟩

/-- Claim C9 counterexample: with declared bounds 6 to 16, the value 100
is submitted to `config_load_set` as 100 — outside the declared maximum
and different from the clamped value 16 — so the submitted value is not
clamped to the entity bounds. -/
theorem C9_counterexample :
    (async_set_native_value snapA 100 (.ok ())).submitted
      = ⟨"config_load_set", 100⟩ ∧
    clamped_submission 16 100 = 16 ∧
    (async_set_native_value snapA 100 (.ok ())).submitted.arg
      ≠ clamped_submission 16 100 ∧
    ¬ ((async_set_native_value snapA 100 (.ok ())).submitted.arg ≤ 16) :=
  ⟨by decide, by decide, by decide, by decide⟩

/-- Claim C9 (amended): the set-current-limit handler submits
`int(value)` unchanged — truncation toward zero, with no clamping — so
the submitted value coincides with the value clamped to the declared
bounds exactly when `int(value)` already lies within them. -/
theorem C9_amended_submits_unclamped (data : Snapshot) (value : ℚ)
    (max_load : Int) (gwOutcome : Except PyErr Unit) :
    (async_set_native_value data value gwOutcome).submitted
      = ⟨"config_load_set", pyInt value⟩ ∧
    (MIN_CURRENT ≤ pyInt value → pyInt value ≤ max_load →
      (async_set_native_value data value gwOutcome).submitted.arg
        = clamped_submission max_load value) := by
  have hsub : (async_set_native_value data value gwOutcome).submitted
      = ⟨"config_load_set", pyInt value⟩ := by
    cases gwOutcome with
    | ok v => rfl
    | error e => cases e <;> rfl
  refine ⟨hsub, fun h1 h2 => ?_⟩
  rw [hsub]
  simp only [clamped_submission, MIN_CURRENT] at *
  omega

/-- Witness for C9 (amended) at the in-bounds value 10. -/
theorem C9_amended_submits_unclamped_witness :
    (MIN_CURRENT ≤ pyInt 10 ∧ pyInt 10 ≤ (16 : Int)) ∧
    (async_set_native_value snapA 10 (.ok ())).submitted.arg
      = clamped_submission 16 10 :=
  ⟨⟨by decide, by decide⟩,
   (C9_amended_submits_unclamped snapA 10 16 (.ok ())).2
     (by decide) (by decide)⟩

/-- Claim C10: a `WallboxError` of any kind raised by the
`transaction_stop` call is swallowed by the stop-charging action: the
action completes without raising, the charging flag is unconditionally
set false, and the persisted record is unconditionally rewritten from
the current snapshot values (which the flag update does not touch). -/
theorem C10_stop_swallows_all_wallbox_errors (data : Snapshot)
    (parse : String → Except PyErr Int) (kind : String) :
    async_turn_off data (.error (.wallboxError kind)) parse
      = .ok (data.set .charger_is_charging (.vBool false),
             save_persistent_data
               (data.set .charger_is_charging (.vBool false))) ∧
    save_persistent_data (data.set .charger_is_charging (.vBool false))
      = save_persistent_data data :=
  ⟨rfl, by simp [save_persistent_data, Snapshot.set, Snapshot.get]⟩

end LrtWallbox
